import Mathlib

/-!
Verification development for the fotobox-dashboard printer-status core
(`flet_app.py`): the history normalizer (`_prepare_history_df`), the
consumption/rate estimator (`compute_print_stats`), the status classifier
(`evaluate_status_simple`) and the poll pipeline (`update_status`).

Modelling conventions:
* Points in time are rationals counting seconds (pandas timestamps have a
  total order and subtraction in seconds; `total_seconds() / 60.0` becomes
  division by 60 on rationals, idealizing Python floats as exact rationals).
* Parsing performed by external libraries is represented by its outcome:
  a cell's `pd.to_datetime(..., errors="coerce")` result is an
  `Option ℚ` (`none` = NaT), its `pd.to_numeric(..., errors="coerce")`
  result an `Option ℚ` (`none` = NaN), and Python `int(cell)` an
  `Option Int` (`none` = raised exception).  The same cell feeds both the
  column-wise and the scalar parse in the code, so one field serves both.
* Python `str.lower()` is modelled as ASCII lowercasing (all keyword
  vocabulary in the program is ASCII).
-/

namespace Fotobox

/-- Characters removed by Python `str.strip()` with no arguments. -/
def isPySpace (c : Char) : Bool :=
  c == ' ' || c == '\t' || c == '\n' || c == '\r' || c == '\x0b' || c == '\x0c'

/-- Python `str.strip()` on a list of characters. -/
def pyStrip (l : List Char) : List Char :=
  ((l.dropWhile isPySpace).reverse.dropWhile isPySpace).reverse

/-- The normalization `(raw_status or "").lower().strip()` performed at the
top of `evaluate_status_simple` (line 183), as a character list. -/
def pyLowerStrip (s : String) : List Char :=
  pyStrip (s.toList.map Char.toLower)

/-- Does `needle` occur as a contiguous sublist of `hay`? -/
def listHasInfix (hay needle : List Char) : Bool :=
  match hay with
  | [] => needle.isEmpty
  | _ :: t => needle.isPrefixOf hay || listHasInfix t needle

/-- Python substring containment `kw in text`. -/
def containsKw (l : List Char) (kw : String) : Bool :=
  listHasInfix l kw.toList

/-- Python `any(k in text for k in kws)`. -/
def containsAnyKw (l : List Char) (kws : List String) : Bool :=
  kws.any (containsKw l)

/-- Python `int(x)` on a rational value: truncation toward zero. -/
def pyInt (q : ℚ) : Int := q.num.tdiv (q.den : Int)

/-- Python binary `max(a, b)` (returns `a` on ties, which on numbers is
value-irrelevant). -/
def pyMax (a b : ℚ) : ℚ := if a < b then b else a

/-- The `hard_errors` keyword list of `evaluate_status_simple`. -/
def hard_errors : List String :=
  ["paper end", "ribbon end", "paper jam", "ribbon error",
   "paper definition error", "data error"]

/-- Keyword list for rule 2 (`cover_open`). -/
def cover_open_kw : List String := ["cover open"]

/-- Keyword list for rule 4 (`cooldown`). -/
def cooldown_kw : List String := ["head cooling down"]

/-- Keyword list for rule 5 (`printing`). -/
def printing_kw : List String := ["printing", "processing", "drucken"]

/-- Keyword list for rule 6 (`ready`). -/
def idle_kw : List String := ["idle", "standby mode"]

/-- Display text of rule 1: the raw message is echoed verbatim. -/
def errorDisplay (raw_status : String) : String :=
  "🔴 STÖRUNG: " ++ raw_status

/-- Display text of rule 2. -/
def coverOpenDisplay : String := "⚠️ Deckel offen!"

/-- Display text of rule 3: the remaining count is echoed. -/
def lowPaperDisplay (media_remaining : Int) : String :=
  "⚠️ Papier fast leer – " ++ toString media_remaining ++ " Bilder übrig"

/-- Display text of rule 4. -/
def cooldownDisplay : String := "🟡 Kopf kühlt ab"

/-- Display text of rule 5. -/
def printingDisplay : String := "🟢 Druckt gerade"

/-- Display text of rule 6. -/
def readyDisplay : String := "✅ Bereit"

/-- Display text of rule 7: unrecognized text echoed for visibility. -/
def readyEchoDisplay (raw_status : String) : String :=
  "✅ Bereit (" ++ raw_status ++ ")"

/-- Display text of the staleness override, showing `int(minutes_diff)`. -/
def staleDisplay (minutes_diff : ℚ) : String :=
  "⚠️ Keine aktuellen Daten (seit " ++ toString (pyInt minutes_diff) ++ " Min)"

/-- The content classification produced by steps 1-7 of
`evaluate_status_simple`, before the staleness override:
`(status_mode, display_text, display_color)`. -/
structure StatusCore where
  status_mode : String
  display_text : String
  display_color : String
  deriving Repr, DecidableEq, Inhabited

/-- Steps 1-7 of `evaluate_status_simple` (lines 183-237): keyword
containment matching on the lower-cased, stripped raw status, in fixed
priority order, with the `media_remaining <= warning_threshold` check as
rule 3. -/
def contentStatus (raw_status : String) (media_remaining : Int)
    (warning_threshold : Int) : StatusCore :=
  let raw_status_l := pyLowerStrip raw_status
  if containsAnyKw raw_status_l hard_errors then
    ⟨"error", errorDisplay raw_status, "red"⟩
  else if containsAnyKw raw_status_l cover_open_kw then
    ⟨"cover_open", coverOpenDisplay, "orange"⟩
  else if media_remaining ≤ warning_threshold then
    ⟨"low_paper", lowPaperDisplay media_remaining, "orange"⟩
  else if containsAnyKw raw_status_l cooldown_kw then
    ⟨"cooldown", cooldownDisplay, "orange"⟩
  else if containsAnyKw raw_status_l printing_kw then
    ⟨"printing", printingDisplay, "green"⟩
  else if containsAnyKw raw_status_l idle_kw || raw_status_l.isEmpty then
    ⟨"ready", readyDisplay, "green"⟩
  else
    ⟨"ready", readyEchoDisplay raw_status, "green"⟩

/-- The classifier's output tuple
`(status_mode, display_text, display_color, minutes_diff)`. -/
structure DerivedStatus where
  status_mode : String
  display_text : String
  display_color : String
  minutes_diff : Option ℚ
  deriving Repr, DecidableEq, Inhabited

/-- `HEARTBEAT_WARN_MINUTES = 60` (line 30). -/
def HEARTBEAT_WARN_MINUTES : ℚ := 60

/-- `evaluate_status_simple` (lines 172-252).  The `timestamp` argument
carries the outcome of `pd.to_datetime(timestamp, errors="coerce")`
(`none` = NaT, which the code detects with `pd.isna`); `now` is the
current time `datetime.datetime.now(LOCAL_TZ)` in seconds (timezone
localization maps both instants onto one absolute time line). -/
def evaluate_status_simple (raw_status : String) (media_remaining : Int)
    (timestamp : Option ℚ) (warning_threshold : Int) (now : ℚ) : DerivedStatus :=
  let c := contentStatus raw_status media_remaining warning_threshold
  match timestamp with
  | none => ⟨c.status_mode, c.display_text, c.display_color, none⟩
  | some ts_parsed =>
    let minutes_diff := (now - ts_parsed) / 60
    if HEARTBEAT_WARN_MINUTES < minutes_diff then
      ⟨"stale", staleDisplay minutes_diff, "orange", some minutes_diff⟩
    else
      ⟨c.status_mode, c.display_text, c.display_color, some minutes_diff⟩

/-- Whether the staleness override fires for a given parsed timestamp. -/
def isStale (timestamp : Option ℚ) (now : ℚ) : Bool :=
  match timestamp with
  | none => false
  | some ts_parsed => decide (HEARTBEAT_WARN_MINUTES < (now - ts_parsed) / 60)

/-- Display severity ordinal of the spec (normal < warning < error). -/
inductive Severity
  | normal
  | warning
  | error
  deriving Repr, DecidableEq

/-- The spec's `display_severity`, read off the display color the code
attaches to each rule: red = error, orange = warning, green = normal. -/
def displaySeverity (color : String) : Severity :=
  if color = "red" then .error
  else if color = "orange" then .warning
  else .normal

/-- One raw row of the history table, with the outcomes of the external
parses as fields: `tsParse` is `pd.to_datetime` on the `Timestamp` cell,
`mediaNa` tells whether the `MediaRemaining` cell is missing/NaN (the
condition of the first `dropna`), `mediaNum` is `pd.to_numeric` on that
cell, and `mediaInt` is Python `int(...)` on it (`none` = exception). -/
structure RawRow where
  tsParse : Option ℚ
  statusStr : String
  mediaNa : Bool
  mediaNum : Option ℚ
  mediaInt : Option Int
  deriving Repr, DecidableEq, Inhabited

/-- The raw tabular payload: which of the required columns are present,
and the rows in received order. -/
structure RawTable where
  hasTimestampCol : Bool
  hasStatusCol : Bool
  hasMediaCol : Bool
  rows : List RawRow
  deriving Repr, DecidableEq, Inhabited

/-- Timestamp of a row that survived filtering (its parse succeeded). -/
def tsOf (r : RawRow) : ℚ := r.tsParse.getD 0

/-- Numeric media value of a row that survived filtering. -/
def mediaOf (r : RawRow) : ℚ := r.mediaNum.getD 0

/-- Keep-condition of `df.dropna(subset=["Timestamp", "MediaRemaining"])`
after the timestamp coercion: timestamp parsed and media cell not NaN. -/
def keepTsMedia (r : RawRow) : Bool := r.tsParse.isSome && !r.mediaNa

/-- A row that survives the whole normalizer: both dropna passes and the
numeric coercion. -/
def passesAll (r : RawRow) : Bool := keepTsMedia r && r.mediaNum.isSome

/-- `df.sort_values("Timestamp")`: ascending by parsed timestamp.  Tie
order is modelled as stable (original order kept).  The real call uses
pandas' default `kind='quicksort'`, which guarantees the ascending order
but not stability; the shortfall is demonstrated on `npArgsortQuick`
below. -/
def sortByTimestamp (l : List RawRow) : List RawRow :=
  l.insertionSort (fun a b => tsOf a ≤ tsOf b)

/-- `_prepare_history_df` (lines 97-115): empty / missing-column early
returns, timestamp coercion, first dropna, sort, numeric coercion of
`MediaRemaining`, second dropna.  Total by construction (never raises). -/
def prepare_history_df (t : RawTable) : List RawRow :=
  if t.rows.isEmpty then []
  else if !(t.hasTimestampCol && t.hasMediaCol) then []
  else
    let df1 := t.rows.filter keepTsMedia
    if df1.isEmpty then []
    else (sortByTimestamp df1).filter (fun r => r.mediaNum.isSome)

/-- The estimator's output dict. -/
structure PrintStats where
  prints_total : ℚ
  duration_min : ℚ
  ppm_overall : Option ℚ
  ppm_window : Option ℚ
  deriving Repr, DecidableEq, Inhabited

/-- `compute_print_stats` (lines 118-157): zero/null result below 2
observations, first-vs-last clamped consumption, guarded overall rate,
trailing-window filter and guarded window rate. -/
def compute_print_stats (t : RawTable) (window_min : ℚ) (media_factor : ℚ) :
    PrintStats :=
  let df := prepare_history_df t
  if df.length < 2 then ⟨0, 0, none, none⟩
  else
    let first_media_raw := mediaOf df.headI
    let last_media_raw := mediaOf df.getLastI
    let prints_total := pyMax 0 ((first_media_raw - last_media_raw) * media_factor)
    let duration_min := (tsOf df.getLastI - tsOf df.headI) / 60
    let ppm_overall :=
      if 0 < duration_min ∧ 0 < prints_total then
        some (prints_total / duration_min)
      else none
    let window_start := tsOf df.getLastI - window_min * 60
    let dfw := df.filter (fun r => decide (window_start ≤ tsOf r))
    let ppm_window :=
      if 2 ≤ dfw.length then
        let f_m_raw := mediaOf dfw.headI
        let l_m_raw := mediaOf dfw.getLastI
        let prints_win := pyMax 0 ((f_m_raw - l_m_raw) * media_factor)
        let dur_win_min := (tsOf dfw.getLastI - tsOf dfw.headI) / 60
        if 0 < dur_win_min ∧ 0 < prints_win then
          some (prints_win / dur_win_min)
        else none
      else none
    ⟨prints_total, duration_min, ppm_overall, ppm_window⟩

/-- Per-printer configuration fields used by `update_status`. -/
structure PrinterCfg where
  media_factor : Int
  warning_threshold : Int
  deriving Repr, DecidableEq

/-- Observable outcome of one `update_status` poll. -/
inductive PollView
  | waiting
  | schemaError
  | shown (status : DerivedStatus) (media_remaining : Int) (stats : PrintStats)
  deriving Repr, DecidableEq

/-- The status-selection part of `update_status` (lines 523-631): empty
check, schema check, then `last = df.iloc[-1]` on the RAW table, the
`int(...)`-with-fallback media conversion, scaling by `media_factor`, and
the classifier call. -/
def update_status (t : RawTable) (cfg : PrinterCfg) (now : ℚ) : PollView :=
  match t.rows.getLast? with
  | none => .waiting
  | some last =>
    if !(t.hasTimestampCol && t.hasStatusCol && t.hasMediaCol) then .schemaError
    else
      let media_remaining_raw := last.mediaInt.getD 0
      let media_remaining := media_remaining_raw * cfg.media_factor
      .shown
        (evaluate_status_simple last.statusStr media_remaining last.tsParse
          cfg.warning_threshold now)
        media_remaining
        (compute_print_stats t 30 (cfg.media_factor : ℚ))

/-!
Demonstration model for the tie behavior of `df.sort_values("Timestamp")`
(line 111).  pandas' default sort kind is `quicksort`, i.e. numpy's
introsort, which its documentation explicitly lists as not stable.  The
definitions below transcribe numpy's `aquicksort` (argsort) algorithm:
median-of-three pivot, Hoare partition over an index array, and insertion
sort below the 16-element cutoff (`SMALL_QUICKSORT = 15`).  The introsort
depth-limit/heapsort fallback is omitted: it cannot trigger on the
17-element input evaluated below (its budget there is 8 and only one
partition step happens).  Keys are `Int` (numpy `datetime64` is int64).
-/

/-- Index-array read with junk default (all accesses below are in
bounds). -/
def aGet (a : Array Nat) (i : Nat) : Nat := a.getD i 0

/-- Key of the row currently at position `i` of the index array. -/
def keyAt (v : List Int) (a : Array Nat) (i : Nat) : Int :=
  v.getD (aGet a i) 0

/-- Swap two positions of the index array (`INTP_SWAP`). -/
def aSwap (a : Array Nat) (i j : Nat) : Array Nat :=
  let x := aGet a i
  let y := aGet a j
  (a.setD i y).setD j x

/-- The shift loop of numpy's argsort insertion sort:
`while (pj > pl && vp < v[*pk]) *pj-- = *pk--;` returning the array and
the final insert position. -/
def npShift (v : List Int) (lo : Nat) (vp : Int) (a : Array Nat) (pj : Nat) :
    (fuel : Nat) → Array Nat × Nat
  | 0 => (a, pj)
  | fuel + 1 =>
    if lo < pj then
      if vp < keyAt v a (pj - 1) then
        npShift v lo vp (a.setD pj (aGet a (pj - 1))) (pj - 1) fuel
      else (a, pj)
    else (a, pj)

/-- One step of the insertion sort: insert the element at position `pi`
into the sorted run `[lo, pi)`. -/
def npInsertOne (v : List Int) (lo : Nat) (a : Array Nat) (pi : Nat) : Array Nat :=
  let vi := aGet a pi
  let vp := v.getD vi 0
  let s := npShift v lo vp a pi pi
  s.1.setD s.2 vi

/-- Insertion-sort driver: insert `cnt` elements starting at position
`pi`. -/
def npInsertLoop (v : List Int) (lo : Nat) (a : Array Nat) (pi cnt : Nat) :
    Array Nat :=
  match cnt with
  | 0 => a
  | c + 1 => npInsertLoop v lo (npInsertOne v lo a pi) (pi + 1) c

/-- numpy's argsort insertion sort over the inclusive range `[lo, hi]`. -/
def npInsertionSort (v : List Int) (a : Array Nat) (lo hi : Nat) : Array Nat :=
  npInsertLoop v lo a (lo + 1) (hi - lo)

/-- Scan `do ++pi; while (v[*pi] < vp);`: first position above `pi` whose
key is not below the pivot. -/
def npScanUp (v : List Int) (a : Array Nat) (vp : Int) (pi : Nat) :
    (fuel : Nat) → Nat
  | 0 => pi + 1
  | fuel + 1 =>
    if keyAt v a (pi + 1) < vp then npScanUp v a vp (pi + 1) fuel else pi + 1

/-- Scan `do --pj; while (vp < v[*pj]);`: first position below `pj` whose
key is not above the pivot. -/
def npScanDown (v : List Int) (a : Array Nat) (vp : Int) (pj : Nat) :
    (fuel : Nat) → Nat
  | 0 => pj - 1
  | fuel + 1 =>
    if vp < keyAt v a (pj - 1) then npScanDown v a vp (pj - 1) fuel else pj - 1

/-- The Hoare partition loop: scan from both ends, swap out-of-place
pairs, stop when the scans cross; returns the array and the crossing
position. -/
def npPartLoop (v : List Int) (vp : Int) (a : Array Nat) (pi pj : Nat) :
    (fuel : Nat) → Array Nat × Nat
  | 0 => (a, pi)
  | fuel + 1 =>
    let piN := npScanUp v a vp pi a.size
    let pjN := npScanDown v a vp pj a.size
    if pjN ≤ piN then (a, piN)
    else npPartLoop v vp (aSwap a piN pjN) piN pjN fuel

/-- One numpy partition step over the inclusive range `[lo, hi]`:
median-of-three of `lo`, mid, `hi`, pivot parked at `hi - 1`, Hoare scan,
pivot swapped into its final place; returns the array and the pivot
position. -/
def npPartition (v : List Int) (a : Array Nat) (lo hi : Nat) : Array Nat × Nat :=
  let mid := lo + (hi - lo) / 2
  let a := if keyAt v a mid < keyAt v a lo then aSwap a mid lo else a
  let a := if keyAt v a hi < keyAt v a mid then aSwap a hi mid else a
  let a := if keyAt v a mid < keyAt v a lo then aSwap a mid lo else a
  let vp := keyAt v a mid
  let a := aSwap a mid (hi - 1)
  let s := npPartLoop v vp a lo (hi - 1) (hi + 1)
  (aSwap s.1 s.2 (hi - 1), s.2)

/-- Recursive core of numpy's argsort quicksort: partition while the
range holds more than `SMALL_QUICKSORT = 15` elements, insertion sort
below that.  `fuel` bounds the recursion depth and is ample at the call
site. -/
def npQsortRec (v : List Int) : (fuel : Nat) → Array Nat → Nat → Nat → Array Nat
  | 0, a, _, _ => a
  | fuel + 1, a, lo, hi =>
    if 15 < hi - lo then
      let s := npPartition v a lo hi
      npQsortRec v fuel (npQsortRec v fuel s.1 lo (s.2 - 1)) (s.2 + 1) hi
    else npInsertionSort v a lo hi

/-- numpy `argsort(kind='quicksort')` of a key list: the permutation of
row positions that `df.sort_values` applies. -/
def npArgsortQuick (v : List Int) : List Nat :=
  (npQsortRec v (v.length + 1) (Array.range v.length) 0 (v.length - 1)).toList

/-!
Concrete fixtures used by witnesses and counterexamples.
-/

/-- Fixture status string matching the `printing` rule. -/
def sPrinting : String := "Printing"

/-- Fixture status string containing the hard error keyword `paper jam`. -/
def sPaperJam : String := "Paper Jam"

/-- Fixture status string: benign text matching no keyword rule. -/
def sReady : String := "Ready"

/-- Fixture observation: idle with 400 media at t = 0 s. -/
def obsIdle : RawRow := ⟨some 0, "Idle", false, some 400, some 400⟩

/-- Fixture observation: printing at t = 600 s with 350 media. -/
def obsPrinting : RawRow := ⟨some 600, sPrinting, false, some 350, some 350⟩

/-- Fixture table: scenario A of the spec (two clean observations,
10 minutes apart, 50 media consumed). -/
def tblScenarioA : RawTable := ⟨true, true, true, [obsIdle, obsPrinting]⟩

/-- Fixture table with a single observation. -/
def tblSingle : RawTable := ⟨true, true, true, [obsIdle]⟩

/-- Fixture row whose timestamp cell does not parse (NaT). -/
def rowBadTs : RawRow := ⟨none, "X", false, some 5, some 5⟩

/-- Fixture row whose media cell is not numeric. -/
def rowBadMedia : RawRow := ⟨some 50, "Y", false, none, none⟩

/-- Fixture table mixing parseable and unparseable rows. -/
def tblMixed : RawTable :=
  ⟨true, true, true, [rowBadTs, obsIdle, rowBadMedia, obsPrinting]⟩

/-- Fixture table whose rows all fail a parse. -/
def tblAllBad : RawTable := ⟨true, true, true, [rowBadTs, rowBadMedia]⟩

/-- Fixture: chronologically later observation (t = 3600 s), received
first; its status carries a hard error keyword. -/
def cexRowA : RawRow := ⟨some 3600, sPaperJam, false, some 400, some 400⟩

/-- Fixture: chronologically earlier observation (t = 3000 s), received
last. -/
def cexRowB : RawRow := ⟨some 3000, sPrinting, false, some 400, some 400⟩

/-- Fixture table received out of chronological order. -/
def cexTable : RawTable := ⟨true, true, true, [cexRowA, cexRowB]⟩

/-- Fixture row whose media cell fails Python `int(...)`. -/
def rowIntFail : RawRow := ⟨some 0, sReady, false, none, none⟩

/-- Fixture table for the `int(...)` fallback. -/
def tblIntFail : RawTable := ⟨true, true, true, [rowIntFail]⟩

/-- Fixture observation: media back up to 400 at t = 1200 s (a refill). -/
def obsRefill : RawRow := ⟨some 1200, "Idle", false, some 400, some 400⟩

/-- Fixture table with a refill: media rises from 350 to 400. -/
def tblRefill : RawTable := ⟨true, true, true, [obsPrinting, obsRefill]⟩

/-- Fixture: the trailing 30-minute window of scenario A. -/
def dfwScenarioA : List RawRow :=
  (prepare_history_df tblScenarioA).filter (fun r =>
    decide (tsOf (prepare_history_df tblScenarioA).getLastI - 30 * 60 ≤ tsOf r))

/-!
Claim theorems.
-/

/-- Helper: the clamp `max(0, x)` is nonnegative. -/
theorem pyMax_zero_nonneg (x : ℚ) : 0 ≤ pyMax 0 x := by
  unfold pyMax
  split
  · linarith
  · exact le_refl 0

/-- C2: whenever the lower-cased, stripped raw status contains a hard
error keyword, the content classification is `error` with severity error
and the raw message echoed verbatim, for every media value — error
keywords take precedence over every later rule, including `low_paper`. -/
theorem error_keywords_take_precedence
    (raw_status : String) (media_remaining warning_threshold : Int)
    (h : containsAnyKw (pyLowerStrip raw_status) hard_errors = true) :
    contentStatus raw_status media_remaining warning_threshold =
      ⟨"error", errorDisplay raw_status, "red"⟩ ∧
    displaySeverity
      (contentStatus raw_status media_remaining warning_threshold).display_color =
      Severity.error := by
  simp [contentStatus, h, displaySeverity]

/-- Witness for C2: `"Paper Jam"` with media 0 (below any threshold)
still classifies as `error`, not `low_paper`. -/
theorem error_keywords_take_precedence_witness :
    containsAnyKw (pyLowerStrip sPaperJam) hard_errors = true ∧
    contentStatus sPaperJam 0 20 = ⟨"error", errorDisplay sPaperJam, "red"⟩ :=
  ⟨by decide, (error_keywords_take_precedence sPaperJam 0 20 (by decide)).1⟩

/-- C3: with no error keyword and no `cover open` in the status text,
`media_remaining <= warning_threshold` (inclusive) classifies as
`low_paper` with severity warning and the remaining count in the display,
independently of the remaining text content. -/
theorem low_paper_threshold_inclusive
    (raw_status : String) (media_remaining warning_threshold : Int)
    (hm : media_remaining ≤ warning_threshold)
    (he : containsAnyKw (pyLowerStrip raw_status) hard_errors = false)
    (hc : containsAnyKw (pyLowerStrip raw_status) cover_open_kw = false) :
    contentStatus raw_status media_remaining warning_threshold =
      ⟨"low_paper", lowPaperDisplay media_remaining, "orange"⟩ ∧
    displaySeverity
      (contentStatus raw_status media_remaining warning_threshold).display_color =
      Severity.warning := by
  simp [contentStatus, he, hc, hm, displaySeverity]

/-- Witness for C3: benign text `"Ready"` with 18 ≤ 20 remaining is
`low_paper`. -/
theorem low_paper_threshold_inclusive_witness :
    (18 : Int) ≤ 20 ∧
    contentStatus sReady 18 20 = ⟨"low_paper", lowPaperDisplay 18, "orange"⟩ :=
  ⟨by decide,
    (low_paper_threshold_inclusive sReady 18 20 (by decide) (by decide) (by decide)).1⟩

/-- C6: a normalized series with fewer than 2 observations yields the
defined zero/null stats, not an error. -/
theorem insufficient_history_zero_null (t : RawTable) (window_min media_factor : ℚ)
    (h : (prepare_history_df t).length < 2) :
    compute_print_stats t window_min media_factor = ⟨0, 0, none, none⟩ := by
  unfold compute_print_stats
  rw [if_pos h]

/-- Witness for C6: a single-row table gives zero/null stats. -/
theorem insufficient_history_zero_null_witness :
    (prepare_history_df tblSingle).length < 2 ∧
    compute_print_stats tblSingle 30 2 = ⟨0, 0, none, none⟩ :=
  ⟨by decide, insufficient_history_zero_null tblSingle 30 2 (by decide)⟩

/-- The normalized series is sorted ascending by timestamp, so its head
and last element are the chronologically first and last observations. -/
theorem prepare_history_df_sorted (t : RawTable) :
    (prepare_history_df t).Pairwise (fun a b => tsOf a ≤ tsOf b) := by
  unfold prepare_history_df
  by_cases h1 : t.rows.isEmpty
  · simp [h1]
  · rw [if_neg h1]
    cases hcols : (t.hasTimestampCol && t.hasMediaCol) with
    | false => simp [hcols]
    | true =>
      simp only [if_true, Bool.not_true, Bool.false_eq_true, if_false]
      by_cases h2 : (t.rows.filter keepTsMedia).isEmpty
      · simp [h2]
      · rw [if_neg h2]
        refine List.Pairwise.sublist (List.filter_sublist _) ?_
        have hs : ∀ l : List RawRow, (l.insertionSort (fun a b => tsOf a ≤ tsOf b)).Pairwise
            (fun a b => tsOf a ≤ tsOf b) := by
          intro l
          haveI : IsTotal RawRow (fun a b => tsOf a ≤ tsOf b) := ⟨fun a b => le_total _ _⟩
          haveI : IsTrans RawRow (fun a b => tsOf a ≤ tsOf b) := ⟨fun a b c => le_trans⟩
          exact List.sorted_insertionSort _ l
        exact hs _

/-- C4: `prints_total` is the clamped scaled first-minus-last media delta
of the normalized series, and is nonnegative for every input, including
refill sequences. -/
theorem prints_total_clamped_first_minus_last
    (t : RawTable) (window_min media_factor : ℚ) :
    0 ≤ (compute_print_stats t window_min media_factor).prints_total ∧
    (2 ≤ (prepare_history_df t).length →
      (compute_print_stats t window_min media_factor).prints_total =
        pyMax 0 ((mediaOf (prepare_history_df t).headI -
          mediaOf (prepare_history_df t).getLastI) * media_factor)) := by
  constructor
  · by_cases h2 : (prepare_history_df t).length < 2
    · unfold compute_print_stats
      rw [if_pos h2]
    · unfold compute_print_stats
      rw [if_neg h2]
      exact pyMax_zero_nonneg _
  · intro h
    unfold compute_print_stats
    rw [if_neg (by omega)]


/-- Witness for C4, including a refill sequence (media increases from
350 to 400, so the raw delta is negative and the result clamps to 0). -/
theorem prints_total_clamped_witness :
    2 ≤ (prepare_history_df tblScenarioA).length ∧
    (compute_print_stats tblScenarioA 30 1).prints_total =
      pyMax 0 ((mediaOf (prepare_history_df tblScenarioA).headI -
        mediaOf (prepare_history_df tblScenarioA).getLastI) * 1) ∧
    2 ≤ (prepare_history_df tblRefill).length ∧
    (compute_print_stats tblRefill 30 1).prints_total =
      pyMax 0 ((mediaOf (prepare_history_df tblRefill).headI -
        mediaOf (prepare_history_df tblRefill).getLastI) * 1) ∧
    0 ≤ (compute_print_stats tblRefill 30 1).prints_total :=
  ⟨by decide, (prints_total_clamped_first_minus_last tblScenarioA 30 1).2 (by decide),
    by decide, (prints_total_clamped_first_minus_last tblRefill 30 1).2 (by decide),
    (prints_total_clamped_first_minus_last tblRefill 30 1).1⟩

/-- C1: the staleness override is applied last and unconditionally: with a
parseable timestamp and elapsed minutes above 60 the final state is
`stale` (severity warning, display showing the elapsed minutes),
regardless of the content classification; at or below 60 minutes the
content classification passes through unchanged (only `minutes_diff` is
filled in); with an unparseable timestamp `minutes_diff` is null and the
content classification stands. -/
theorem staleness_override_applied_last
    (raw_status : String) (media_remaining warning_threshold : Int)
    (timestamp : Option ℚ) (now : ℚ) :
    (timestamp = none →
      evaluate_status_simple raw_status media_remaining timestamp warning_threshold now =
        ⟨(contentStatus raw_status media_remaining warning_threshold).status_mode,
         (contentStatus raw_status media_remaining warning_threshold).display_text,
         (contentStatus raw_status media_remaining warning_threshold).display_color,
         none⟩) ∧
    (∀ ts_parsed : ℚ, timestamp = some ts_parsed →
      (HEARTBEAT_WARN_MINUTES < (now - ts_parsed) / 60 →
        evaluate_status_simple raw_status media_remaining timestamp warning_threshold now =
          ⟨"stale", staleDisplay ((now - ts_parsed) / 60), "orange",
           some ((now - ts_parsed) / 60)⟩ ∧
        displaySeverity "orange" = Severity.warning) ∧
      ((now - ts_parsed) / 60 ≤ HEARTBEAT_WARN_MINUTES →
        evaluate_status_simple raw_status media_remaining timestamp warning_threshold now =
          ⟨(contentStatus raw_status media_remaining warning_threshold).status_mode,
           (contentStatus raw_status media_remaining warning_threshold).display_text,
           (contentStatus raw_status media_remaining warning_threshold).display_color,
           some ((now - ts_parsed) / 60)⟩)) := by
  refine ⟨fun h => ?_, fun ts_parsed h => ⟨fun hgt => ⟨?_, rfl⟩, fun hle => ?_⟩⟩ <;> subst h
  · rfl
  · simp only [evaluate_status_simple]
    rw [if_pos hgt]
  · simp only [evaluate_status_simple]
    rw [if_neg (not_lt.mpr hle)]

/-- Witness for C1: all three branches at concrete inputs (120 minutes
old, 60 minutes old, unparseable). -/
theorem staleness_override_applied_last_witness :
    HEARTBEAT_WARN_MINUTES < ((7200 : ℚ) - 0) / 60 ∧
    evaluate_status_simple sPrinting 100 (some 0) 20 7200 =
      ⟨"stale", staleDisplay ((7200 - 0) / 60), "orange", some ((7200 - 0) / 60)⟩ ∧
    evaluate_status_simple sPrinting 100 (some 0) 20 3600 =
      ⟨(contentStatus sPrinting 100 20).status_mode,
       (contentStatus sPrinting 100 20).display_text,
       (contentStatus sPrinting 100 20).display_color, some ((3600 - 0) / 60)⟩ ∧
    evaluate_status_simple sPrinting 100 none 20 7200 =
      ⟨(contentStatus sPrinting 100 20).status_mode,
       (contentStatus sPrinting 100 20).display_text,
       (contentStatus sPrinting 100 20).display_color, none⟩ := by
  refine ⟨by norm_num [HEARTBEAT_WARN_MINUTES], ?_, ?_, ?_⟩
  · exact (((staleness_override_applied_last sPrinting 100 20 (some 0) 7200).2 0 rfl).1
      (by norm_num [HEARTBEAT_WARN_MINUTES])).1
  · exact ((staleness_override_applied_last sPrinting 100 20 (some 0) 3600).2 0 rfl).2
      (by norm_num [HEARTBEAT_WARN_MINUTES])
  · exact (staleness_override_applied_last sPrinting 100 20 none 7200).1 rfl

/-- C5: `throughput_overall` is populated exactly when duration and
prints are both strictly positive (and then equals their quotient); the
trailing window is the timestamp-filtered suffix, `throughput_window`
stays null whenever fewer than 2 observations fall in it (and whenever
the whole series is short), and is otherwise populated under the same
strict-positivity guard with the same clamp rule. -/
theorem throughput_guards (t : RawTable) (window_min media_factor : ℚ) :
    ((compute_print_stats t window_min media_factor).ppm_overall =
      if 0 < (compute_print_stats t window_min media_factor).duration_min ∧
          0 < (compute_print_stats t window_min media_factor).prints_total then
        some ((compute_print_stats t window_min media_factor).prints_total /
          (compute_print_stats t window_min media_factor).duration_min)
      else none) ∧
    ((prepare_history_df t).length < 2 →
      (compute_print_stats t window_min media_factor).ppm_window = none) ∧
    (2 ≤ (prepare_history_df t).length →
      ∀ dfw, dfw = (prepare_history_df t).filter (fun r =>
          decide (tsOf (prepare_history_df t).getLastI - window_min * 60 ≤ tsOf r)) →
        (dfw.length < 2 →
          (compute_print_stats t window_min media_factor).ppm_window = none) ∧
        (2 ≤ dfw.length →
          (compute_print_stats t window_min media_factor).ppm_window =
            if 0 < (tsOf dfw.getLastI - tsOf dfw.headI) / 60 ∧
                0 < pyMax 0 ((mediaOf dfw.headI - mediaOf dfw.getLastI) * media_factor) then
              some (pyMax 0 ((mediaOf dfw.headI - mediaOf dfw.getLastI) * media_factor) /
                ((tsOf dfw.getLastI - tsOf dfw.headI) / 60))
            else none)) := by
  refine ⟨?_, fun h => ?_, fun h dfw hdfw => ⟨fun hlt => ?_, fun hge => ?_⟩⟩
  · by_cases h2 : (prepare_history_df t).length < 2
    · unfold compute_print_stats
      rw [if_pos h2]
      norm_num
    · unfold compute_print_stats
      rw [if_neg h2]
  · unfold compute_print_stats
    rw [if_pos h]
  · subst hdfw
    simp only [compute_print_stats]
    rw [if_neg (show ¬((prepare_history_df t).length < 2) by omega)]
    rw [if_neg (show ¬(2 ≤ (List.filter (fun r =>
      decide (tsOf (prepare_history_df t).getLastI - window_min * 60 ≤ tsOf r))
      (prepare_history_df t)).length) by omega)]
  · subst hdfw
    simp only [compute_print_stats]
    rw [if_neg (show ¬((prepare_history_df t).length < 2) by omega)]
    rw [if_pos hge]

/-- Witness for C5: the overall guard on scenario A, a null window on a
single-row series, and the populated window branch on scenario A. -/
theorem throughput_guards_witness :
    ((prepare_history_df tblSingle).length < 2 ∧
      (compute_print_stats tblSingle 30 1).ppm_window = none) ∧
    (compute_print_stats tblScenarioA 30 1).ppm_overall =
      (if 0 < (compute_print_stats tblScenarioA 30 1).duration_min ∧
          0 < (compute_print_stats tblScenarioA 30 1).prints_total then
        some ((compute_print_stats tblScenarioA 30 1).prints_total /
          (compute_print_stats tblScenarioA 30 1).duration_min)
      else none) ∧
    2 ≤ (prepare_history_df tblScenarioA).length ∧
    2 ≤ dfwScenarioA.length ∧
    (compute_print_stats tblScenarioA 30 1).ppm_window =
      (if 0 < (tsOf dfwScenarioA.getLastI - tsOf dfwScenarioA.headI) / 60 ∧
          0 < pyMax 0 ((mediaOf dfwScenarioA.headI - mediaOf dfwScenarioA.getLastI) * 1) then
        some (pyMax 0 ((mediaOf dfwScenarioA.headI - mediaOf dfwScenarioA.getLastI) * 1) /
          ((tsOf dfwScenarioA.getLastI - tsOf dfwScenarioA.headI) / 60))
      else none) := by
  have hw : 2 ≤ dfwScenarioA.length := by
    norm_num [dfwScenarioA, prepare_history_df, sortByTimestamp, List.insertionSort,
      List.orderedInsert, keepTsMedia, tblScenarioA, obsIdle, obsPrinting, tsOf,
      List.filter, List.getLastI, List.getLast?]
  refine ⟨⟨by decide, (throughput_guards tblSingle 30 1).2.1 (by decide)⟩,
    (throughput_guards tblScenarioA 30 1).1, by decide, hw,
    ((throughput_guards tblScenarioA 30 1).2.2 (by decide) dfwScenarioA rfl).2 hw⟩

/-- C9: the loader/normalizer fails soft.  It is total (never raises) by
construction; an empty table, a missing required column (`Timestamp` or
`MediaRemaining`), or a table whose rows all fail a parse each yield the
empty series; and in general the surviving rows are exactly the rows
passing both parses (as a permutation — the sort only reorders), so a
failing row is dropped individually while the rest are kept. -/
theorem loader_fails_soft (t : RawTable) :
    (t.rows = [] → prepare_history_df t = []) ∧
    (t.hasTimestampCol = false ∨ t.hasMediaCol = false → prepare_history_df t = []) ∧
    ((∀ r ∈ t.rows, passesAll r = false) → prepare_history_df t = []) ∧
    (prepare_history_df t).Perm
      ((if t.hasTimestampCol && t.hasMediaCol then t.rows else []).filter passesAll) := by
  have hfilter : t.rows.filter passesAll =
      (t.rows.filter keepTsMedia).filter (fun r => r.mediaNum.isSome) := by
    rw [List.filter_filter]
    refine List.filter_congr ?_
    intro a _
    simp [passesAll, Bool.and_comm]
  have key : (prepare_history_df t).Perm
      ((if t.hasTimestampCol && t.hasMediaCol then t.rows else []).filter passesAll) := by
    unfold prepare_history_df
    by_cases h1 : t.rows.isEmpty
    · rw [if_pos h1, List.isEmpty_iff.mp h1]
      simp
    · rw [if_neg h1]
      cases hcols : (t.hasTimestampCol && t.hasMediaCol) with
      | false => simp [hcols]
      | true =>
        simp only [if_true, Bool.not_true, Bool.false_eq_true, if_false, hfilter]
        by_cases h2 : (t.rows.filter keepTsMedia).isEmpty
        · rw [if_pos h2, List.isEmpty_iff.mp h2]
          simp
        · rw [if_neg h2]
          exact (List.perm_insertionSort _ _).filter _
  refine ⟨fun hr => ?_, fun hcol => ?_, fun hall => ?_, key⟩
  · unfold prepare_history_df
    simp [hr]
  · unfold prepare_history_df
    rcases hcol with h | h <;> simp [h]
  · refine List.Perm.eq_nil (key.trans ?_)
    have hnil : (if t.hasTimestampCol && t.hasMediaCol then t.rows else []).filter
        passesAll = [] := by
      cases hcols : (t.hasTimestampCol && t.hasMediaCol)
      · simp
      · rw [if_pos rfl]
        exact List.filter_eq_nil_iff.mpr (fun a ha => by simp [hall a ha])
    rw [hnil]

/-- Witness for C9: a table whose rows all fail becomes the empty series;
on a mixed table the kept rows are exactly the fully-parsed ones. -/
theorem loader_fails_soft_witness :
    (∀ r ∈ tblAllBad.rows, passesAll r = false) ∧
    prepare_history_df tblAllBad = [] ∧
    (prepare_history_df tblMixed).Perm
      ((if tblMixed.hasTimestampCol && tblMixed.hasMediaCol then tblMixed.rows
        else []).filter passesAll) :=
  ⟨by decide, (loader_fails_soft tblAllBad).2.2.1 (by decide),
    (loader_fails_soft tblMixed).2.2.2⟩

/-- C8 counterexample: on a table received out of chronological order the
classifier is handed the last RAW row (here the chronologically older
`"Printing"` observation), not the chronologically latest row of the
normalized series (whose status `"Paper Jam"` would classify as
`error`). -/
theorem classifier_input_not_from_normalized_series :
    cexTable.rows.getLast? = some cexRowB ∧
    (prepare_history_df cexTable).getLast? = some cexRowA ∧
    cexRowA ≠ cexRowB ∧
    update_status cexTable ⟨1, 20⟩ 3900 =
      PollView.shown ⟨"printing", printingDisplay, "green", some ((3900 - 3000) / 60)⟩
        400 (compute_print_stats cexTable 30 ((1 : Int) : ℚ)) ∧
    (evaluate_status_simple cexRowA.statusStr (cexRowA.mediaInt.getD 0 * 1)
      cexRowA.tsParse 20 3900).status_mode = "error" := by
  refine ⟨by decide, by decide, by decide, ?_, ?_⟩
  · have hc : contentStatus sPrinting 400 20 = ⟨"printing", printingDisplay, "green"⟩ := by
      decide
    simp only [update_status, cexTable, cexRowB, cexRowA]
    norm_num [evaluate_status_simple, hc, HEARTBEAT_WARN_MINUTES]
  · have hc : contentStatus sPaperJam 400 20 = ⟨"error", errorDisplay sPaperJam, "red"⟩ := by
      decide
    norm_num [evaluate_status_simple, cexRowA, hc, HEARTBEAT_WARN_MINUTES]

/-- C8 amended: after the empty-table and schema checks, the observation
handed to the classifier is the last row of the raw table in received
order (`df.iloc[-1]`), with the `int(...)`-fallback media conversion and
`media_factor` scaling — not the chronologically latest row of the
normalized series. -/
theorem classifier_receives_last_raw_row (t : RawTable) (cfg : PrinterCfg) (now : ℚ)
    (last : RawRow) (hlast : t.rows.getLast? = some last)
    (hcols : (t.hasTimestampCol && t.hasStatusCol && t.hasMediaCol) = true) :
    update_status t cfg now =
      PollView.shown
        (evaluate_status_simple last.statusStr (last.mediaInt.getD 0 * cfg.media_factor)
          last.tsParse cfg.warning_threshold now)
        (last.mediaInt.getD 0 * cfg.media_factor)
        (compute_print_stats t 30 (cfg.media_factor : ℚ)) := by
  unfold update_status
  rw [hlast]
  simp [hcols]

/-- Witness for C8's amended statement, at the out-of-order table. -/
theorem classifier_receives_last_raw_row_witness :
    cexTable.rows.getLast? = some cexRowB ∧
    update_status cexTable ⟨1, 20⟩ 3900 =
      PollView.shown
        (evaluate_status_simple cexRowB.statusStr (cexRowB.mediaInt.getD 0 * 1)
          cexRowB.tsParse 20 3900)
        (cexRowB.mediaInt.getD 0 * 1)
        (compute_print_stats cexTable 30 ((1 : Int) : ℚ)) :=
  ⟨by decide, classifier_receives_last_raw_row cexTable ⟨1, 20⟩ 3900 cexRowB
    (by decide) (by decide)⟩

/-- C10: when Python `int(...)` fails on the `MediaRemaining` cell of the
selected row, `update_status` substitutes 0 before scaling, so with a
nonnegative threshold and a status text free of error and cover-open
keywords the content classification is necessarily `low_paper` (and so is
the final state whenever the staleness override does not fire). -/
theorem media_int_failure_becomes_low_paper (t : RawTable) (cfg : PrinterCfg) (now : ℚ)
    (last : RawRow) (hlast : t.rows.getLast? = some last)
    (hcols : (t.hasTimestampCol && t.hasStatusCol && t.hasMediaCol) = true)
    (hint : last.mediaInt = none)
    (hthr : 0 ≤ cfg.warning_threshold)
    (he : containsAnyKw (pyLowerStrip last.statusStr) hard_errors = false)
    (hc : containsAnyKw (pyLowerStrip last.statusStr) cover_open_kw = false) :
    last.mediaInt.getD 0 * cfg.media_factor = 0 ∧
    (contentStatus last.statusStr (last.mediaInt.getD 0 * cfg.media_factor)
      cfg.warning_threshold).status_mode = "low_paper" ∧
    update_status t cfg now =
      PollView.shown
        (evaluate_status_simple last.statusStr 0 last.tsParse cfg.warning_threshold now)
        0 (compute_print_stats t 30 (cfg.media_factor : ℚ)) ∧
    (isStale last.tsParse now = false →
      (evaluate_status_simple last.statusStr 0 last.tsParse cfg.warning_threshold
        now).status_mode = "low_paper") := by
  have hzero : last.mediaInt.getD 0 * cfg.media_factor = 0 := by
    rw [hint]
    simp
  have hcontent : contentStatus last.statusStr 0 cfg.warning_threshold =
      ⟨"low_paper", lowPaperDisplay 0, "orange"⟩ := by
    simp [contentStatus, he, hc, hthr]
  refine ⟨hzero, ?_, ?_, ?_⟩
  · rw [hzero, hcontent]
  · unfold update_status
    rw [hlast]
    simp [hcols, hint]
  · intro hns
    cases hts : last.tsParse with
    | none =>
      simp [evaluate_status_simple, hcontent]
    | some ts_parsed =>
      rw [hts] at hns
      simp only [isStale, decide_eq_false_iff_not] at hns
      simp only [evaluate_status_simple]
      rw [if_neg hns, hcontent]

/-- Witness for C10: a row whose media cell fails `int(...)` and whose
text is benign `"Ready"` classifies as `low_paper` for the poll. -/
theorem media_int_failure_becomes_low_paper_witness :
    rowIntFail.mediaInt = none ∧
    (contentStatus rowIntFail.statusStr (rowIntFail.mediaInt.getD 0 * 2)
      20).status_mode = "low_paper" ∧
    (evaluate_status_simple rowIntFail.statusStr 0 rowIntFail.tsParse 20
      0).status_mode = "low_paper" := by
  have h := media_int_failure_becomes_low_paper tblIntFail ⟨2, 20⟩ 0 rowIntFail
    (by decide) (by decide) (by decide) (by decide) (by decide) (by decide)
  exact ⟨rfl, h.2.1, h.2.2.2 (by norm_num [isStale, rowIntFail, HEARTBEAT_WARN_MINUTES])⟩

set_option maxRecDepth 40000 in
/-- C7 (supporting evidence): numpy's argsort `kind='quicksort'` — the
sort behind `df.sort_values("Timestamp")` — maps 17 equal keys to a
non-identity permutation: its partition step swaps equal-key entries once
the input exceeds the 16-element insertion-sort cutoff, so the tie order
of equal timestamps is not preserved. -/
theorem quicksort_reorders_equal_keys :
    npArgsortQuick (List.replicate 17 0) =
      [0, 14, 13, 12, 11, 10, 9, 15, 8, 6, 5, 4, 3, 2, 1, 7, 16] ∧
    npArgsortQuick (List.replicate 17 0) ≠ List.range 17 := by
  constructor
  · decide
  · decide

end Fotobox
